import Mathlib

/-!
Verification development for the keyword-driven code-generation web app
(Express server routes plus the client-side chat/generation orchestrator).

The definitions below are a shallow embedding of the TypeScript source:

* `askHandler` embeds the `POST /api/ask` route: keyword classification of the
  prompt, the calculator/todo build branches (with their file bundles and disk
  writes), the process-wide `global.projectFiles` slot, and the JSON response.
  The todo build branch of the source references the identifier `files`, which
  is only declared inside the calculator branch's block scope; at runtime this
  raises a ReferenceError that is caught by the route's try/catch and turned
  into the HTTP 500 `Internal server error` envelope.  The embedding models
  this as the `serverError` outcome (reached after `global.projectFiles` has
  already been assigned, exactly as in the source).
* `createFileHandler` embeds `POST /api/files/create`.
* `listFilesHandler` embeds `GET /api/files/list` over a model file system.
* `generateFileName`, `simulateTypingProgress`, `fileGenRun`,
  `createCancelToken`/`runTokenOps` embed the client orchestrator pieces.

Machine arithmetic: the only numeric computation is
`Math.round((i / n) * 100)`, modelled in exact rational arithmetic as
`⌊(200*i + n) / (2*n)⌋` over `Nat`; concrete inputs used in theorems are
chosen so that IEEE double evaluation agrees with the exact value.
-/

/-- JavaScript substring containment (`String.prototype.includes`) on
character lists: `pat` occurs contiguously in `l`. -/
def hasSubstr : List Char → List Char → Bool
  | l, pat =>
    match l with
    | [] => pat.isEmpty
    | _ :: t => pat.isPrefixOf l || hasSubstr t pat

/-- `s.includes(pat)` for strings. -/
def jsIncludes (s pat : String) : Bool := hasSubstr s.data pat.data

/-- `s.toLowerCase()`; the source only compares ASCII keywords, for which
`Char.toLower` agrees with JavaScript. -/
def toLowerStr (s : String) : String := ⟨s.data.map Char.toLower⟩

/-- JavaScript falsiness of a string-valued request-body field that may be
absent: `!x` is true exactly when the field is absent or the empty string. -/
def jsFalsy : Option String → Bool
  | none => true
  | some s => s == ""

/-- One value of the `files` bundles built by the server: `{content, language}`. -/
structure FileEntry where
  content : String
  language : String
deriving DecidableEq

/-- A file bundle: an insertion-ordered mapping from filename to entry, as
produced by the build branches and stored in `global.projectFiles`. -/
abbrev Bundle := List (String × FileEntry)

def calcChatResponse : String :=
  "I\x27ll create a modern calculator app with a sleek design and full functionality."

def calcBuildResponse : String :=
  "\u201a\u00fa\u00d6 Calculator app created! Your modern calculator includes:\n\n\uf8ff\u00fc\u00ee\u00a2 Full arithmetic operations\n\uf8ff\u00fc\u00e9\u00ae Beautiful glass-morphism design\n\u201a\u00e5\u00ae\u00d4\u220f\u00e8 Keyboard support\n\uf8ff\u00fc\u00ec\u00b1 Responsive layout\n\nCheck the preview to see your calculator in action!"

def todoChatResponse : String :=
  "I\x27ll build a feature-rich todo list app with modern design and local storage."

def genericResponse : String :=
  "I can help you build that! Let me know if you\x27d like me to create the complete application with all files and functionality."

def emptyFallbackResponse : String :=
  "I\x27m here to help you build amazing applications! What would you like to create?"

def calcIndexHtml : String :=
  "<!DOCTYPE html>\n<html lang=\"en\">\n<head>\n    <meta charset=\"UTF-8\">\n    <meta name=\"viewport\" content=\"width=device-width, initial-scale=1.0\">\n    <title>Calculator App</title>\n    <link rel=\"stylesheet\" href=\"style.css\">\n</head>\n<body>\n    <div class=\"calculator\">\n        <div class=\"display\">\n            <input type=\"text\" id=\"result\" readonly>\n        </div>\n        <div class=\"buttons\">\n            <button onclick=\"clearDisplay()\">C</button>\n            <button onclick=\"deleteLast()\">\u201a\u00e5\u00b4</button>\n            <button onclick=\"appendToDisplay(\x27/\x27)\">/</button>\n            <button onclick=\"appendToDisplay(\x27*\x27)\">\u221a\u00f3</button>\n\n            <button onclick=\"appendToDisplay(\x277\x27)\">7</button>\n            <button onclick=\"appendToDisplay(\x278\x27)\">8</button>\n            <button onclick=\"appendToDisplay(\x279\x27)\">9</button>\n            <button onclick=\"appendToDisplay(\x27-\x27)\">-</button>\n\n            <button onclick=\"appendToDisplay(\x274\x27)\">4</button>\n            <button onclick=\"appendToDisplay(\x275\x27)\">5</button>\n            <button onclick=\"appendToDisplay(\x276\x27)\">6</button>\n            <button onclick=\"appendToDisplay(\x27+\x27)\">+</button>\n\n            <button onclick=\"appendToDisplay(\x271\x27)\">1</button>\n            <button onclick=\"appendToDisplay(\x272\x27)\">2</button>\n            <button onclick=\"appendToDisplay(\x273\x27)\">3</button>\n            <button onclick=\"calculate()\" rowspan=\"2\">=</button>\n\n            <button onclick=\"appendToDisplay(\x270\x27)\" colspan=\"2\">0</button>\n            <button onclick=\"appendToDisplay(\x27.\x27)\">.</button>\n        </div>\n    </div>\n    <script src=\"script.js\"></script>\n</body>\n</html>"

def calcStyleCss : String :=
  "* \x7b\n    margin: 0;\n    padding: 0;\n    box-sizing: border-box;\n\x7d\n\nbody \x7b\n    font-family: \x27Segoe UI\x27, Tahoma, Geneva, Verdana, sans-serif;\n    background: linear-gradient(135deg, #667eea 0%, #764ba2 100%);\n    min-height: 100vh;\n    display: flex;\n    justify-content: center;\n    align-items: center;\n\x7d\n\n.calculator \x7b\n    background: rgba(255, 255, 255, 0.1);\n    border-radius: 20px;\n    padding: 20px;\n    backdrop-filter: blur(10px);\n    box-shadow: 0 8px 32px 0 rgba(31, 38, 135, 0.37);\n    border: 1px solid rgba(255, 255, 255, 0.18);\n\x7d\n\n.display \x7b\n    margin-bottom: 20px;\n\x7d\n\n#result \x7b\n    width: 100%;\n    height: 80px;\n    background: rgba(0, 0, 0, 0.3);\n    border: none;\n    border-radius: 10px;\n    color: white;\n    font-size: 2em;\n    text-align: right;\n    padding: 0 20px;\n    outline: none;\n\x7d\n\n.buttons \x7b\n    display: grid;\n    grid-template-columns: repeat(4, 1fr);\n    gap: 15px;\n\x7d\n\nbutton \x7b\n    height: 60px;\n    border: none;\n    border-radius: 10px;\n    background: rgba(255, 255, 255, 0.2);\n    color: white;\n    font-size: 1.2em;\n    cursor: pointer;\n    transition: all 0.3s ease;\n\x7d\n\nbutton:hover \x7b\n    background: rgba(255, 255, 255, 0.3);\n    transform: translateY(-2px);\n\x7d\n\nbutton:active \x7b\n    transform: translateY(0);\n\x7d"

def calcScriptJs : String :=
  "let display = document.getElementById(\x27result\x27);\nlet currentInput = \x27\x27;\n\nfunction appendToDisplay(value) \x7b\n    currentInput += value;\n    display.value = currentInput;\n\x7d\n\nfunction clearDisplay() \x7b\n    currentInput = \x27\x27;\n    display.value = \x27\x27;\n\x7d\n\nfunction deleteLast() \x7b\n    currentInput = currentInput.slice(0, -1);\n    display.value = currentInput;\n\x7d\n\nfunction calculate() \x7b\n    try \x7b\n        let result = eval(currentInput.replace(\x27\u221a\u00f3\x27, \x27*\x27));\n        display.value = result;\n        currentInput = result.toString();\n    \x7d catch (error) \x7b\n        display.value = \x27Error\x27;\n        currentInput = \x27\x27;\n    \x7d\n\x7d\n\n// Keyboard support\ndocument.addEventListener(\x27keydown\x27, function(event) \x7b\n    const key = event.key;\n\n    if (\x270123456789+-*/.\x27.includes(key)) \x7b\n        appendToDisplay(key === \x27*\x27 ? \x27\u221a\u00f3\x27 : key);\n    \x7d else if (key === \x27Enter\x27 || key === \x27=\x27) \x7b\n        calculate();\n    \x7d else if (key === \x27Escape\x27 || key === \x27c\x27 || key === \x27C\x27) \x7b\n        clearDisplay();\n    \x7d else if (key === \x27Backspace\x27) \x7b\n        deleteLast();\n    \x7d\n\x7d);"

def todoIndexHtml : String :=
  "<!DOCTYPE html>\n<html lang=\"en\">\n<head>\n    <meta charset=\"UTF-8\">\n    <meta name=\"viewport\" content=\"width=device-width, initial-scale=1.0\">\n    <title>Todo List App</title>\n    <link rel=\"stylesheet\" href=\"style.css\">\n</head>\n<body>\n    <div class=\"container\">\n        <h1>My Todo List</h1>\n        <div class=\"input-container\">\n            <input type=\"text\" id=\"todoInput\" placeholder=\"Add a new task...\">\n            <button onclick=\"addTodo()\">Add</button>\n        </div>\n        <div class=\"filters\">\n            <button class=\"filter-btn active\" onclick=\"filterTodos(\x27all\x27)\">All</button>\n            <button class=\"filter-btn\" onclick=\"filterTodos(\x27active\x27)\">Active</button>\n            <button class=\"filter-btn\" onclick=\"filterTodos(\x27completed\x27)\">Completed</button>\n        </div>\n        <ul id=\"todoList\"></ul>\n        <div class=\"stats\">\n            <span id=\"totalTasks\">0 tasks</span>\n            <button onclick=\"clearCompleted()\">Clear Completed</button>\n        </div>\n    </div>\n    <script src=\"script.js\"></script>\n</body>\n</html>"

def todoStyleCss : String :=
  "* \x7b\n    margin: 0;\n    padding: 0;\n    box-sizing: border-box;\n\x7d\n\nbody \x7b\n    font-family: \x27Segoe UI\x27, Tahoma, Geneva, Verdana, sans-serif;\n    background: linear-gradient(135deg, #667eea 0%, #764ba2 100%);\n    min-height: 100vh;\n    padding: 20px;\n\x7d\n\n.container \x7b\n    max-width: 600px;\n    margin: 0 auto;\n    background: white;\n    border-radius: 15px;\n    padding: 30px;\n    box-shadow: 0 10px 30px rgba(0, 0, 0, 0.1);\n\x7d\n\nh1 \x7b\n    text-align: center;\n    color: #333;\n    margin-bottom: 30px;\n    font-size: 2.5em;\n\x7d\n\n.input-container \x7b\n    display: flex;\n    gap: 10px;\n    margin-bottom: 20px;\n\x7d\n\n#todoInput \x7b\n    flex: 1;\n    padding: 15px;\n    border: 2px solid #e0e0e0;\n    border-radius: 8px;\n    font-size: 16px;\n    outline: none;\n\x7d\n\n#todoInput:focus \x7b\n    border-color: #667eea;\n\x7d\n\nbutton \x7b\n    padding: 15px 20px;\n    background: #667eea;\n    color: white;\n    border: none;\n    border-radius: 8px;\n    cursor: pointer;\n    font-size: 16px;\n    transition: all 0.3s ease;\n\x7d\n\nbutton:hover \x7b\n    background: #5a6fd8;\n    transform: translateY(-2px);\n\x7d\n\n.filters \x7b\n    display: flex;\n    gap: 10px;\n    margin-bottom: 20px;\n    justify-content: center;\n\x7d\n\n.filter-btn \x7b\n    padding: 8px 16px;\n    background: transparent;\n    color: #667eea;\n    border: 2px solid #667eea;\n    font-size: 14px;\n\x7d\n\n.filter-btn.active \x7b\n    background: #667eea;\n    color: white;\n\x7d\n\n#todoList \x7b\n    list-style: none;\n    margin-bottom: 20px;\n\x7d\n\n.todo-item \x7b\n    display: flex;\n    align-items: center;\n    padding: 15px;\n    border: 1px solid #e0e0e0;\n    border-radius: 8px;\n    margin-bottom: 10px;\n    transition: all 0.3s ease;\n\x7d\n\n.todo-item:hover \x7b\n    transform: translateX(5px);\n    box-shadow: 0 2px 10px rgba(0, 0, 0, 0.1);\n\x7d\n\n.todo-item.completed \x7b\n    opacity: 0.6;\n    text-decoration: line-through;\n\x7d\n\n.todo-item input[type=\"checkbox\"] \x7b\n    margin-right: 15px;\n    transform: scale(1.2);\n\x7d\n\n.todo-text \x7b\n    flex: 1;\n    font-size: 16px;\n\x7d\n\n.delete-btn \x7b\n    background: #ff4757;\n    padding: 5px 10px;\n    font-size: 12px;\n\x7d\n\n.delete-btn:hover \x7b\n    background: #ff3838;\n\x7d\n\n.stats \x7b\n    display: flex;\n    justify-content: space-between;\n    align-items: center;\n    padding-top: 20px;\n    border-top: 1px solid #e0e0e0;\n\x7d\n\n.stats button \x7b\n    background: #ff4757;\n    padding: 8px 16px;\n    font-size: 14px;\n\x7d"

def todoScriptJs : String :=
  "let todos = JSON.parse(localStorage.getItem(\x27todos\x27)) || [];\nlet currentFilter = \x27all\x27;\n\nfunction saveTodos() \x7b\n    localStorage.setItem(\x27todos\x27, JSON.stringify(todos));\n\x7d\n\nfunction addTodo() \x7b\n    const input = document.getElementById(\x27todoInput\x27);\n    const text = input.value.trim();\n\n    if (text === \x27\x27) return;\n\n    const todo = \x7b\n        id: Date.now(),\n        text: text,\n        completed: false,\n        createdAt: new Date().toISOString()\n    \x7d;\n\n    todos.push(todo);\n    input.value = \x27\x27;\n    saveTodos();\n    renderTodos();\n\x7d\n\nfunction toggleTodo(id) \x7b\n    todos = todos.map(todo => \n        todo.id === id ? \x7b ...todo, completed: !todo.completed \x7d : todo\n    );\n    saveTodos();\n    renderTodos();\n\x7d\n\nfunction deleteTodo(id) \x7b\n    todos = todos.filter(todo => todo.id !== id);\n    saveTodos();\n    renderTodos();\n\x7d\n\nfunction filterTodos(filter) \x7b\n    currentFilter = filter;\n\n    // Update filter buttons\n    document.querySelectorAll(\x27.filter-btn\x27).forEach(btn => \x7b\n        btn.classList.remove(\x27active\x27);\n    \x7d);\n    event.target.classList.add(\x27active\x27);\n\n    renderTodos();\n\x7d\n\nfunction clearCompleted() \x7b\n    todos = todos.filter(todo => !todo.completed);\n    saveTodos();\n    renderTodos();\n\x7d\n\nfunction renderTodos() \x7b\n    const todoList = document.getElementById(\x27todoList\x27);\n    const totalTasks = document.getElementById(\x27totalTasks\x27);\n\n    let filteredTodos = todos;\n\n    if (currentFilter === \x27active\x27) \x7b\n        filteredTodos = todos.filter(todo => !todo.completed);\n    \x7d else if (currentFilter === \x27completed\x27) \x7b\n        filteredTodos = todos.filter(todo => todo.completed);\n    \x7d\n\n    todoList.innerHTML = filteredTodos.map(todo => \x60\n        <li class=\"todo-item $\x7btodo.completed ? \x27completed\x27 : \x27\x27\x7d\">\n            <input type=\"checkbox\" $\x7btodo.completed ? \x27checked\x27 : \x27\x27\x7d \n                   onchange=\"toggleTodo($\x7btodo.id\x7d)\">\n            <span class=\"todo-text\">$\x7btodo.text\x7d</span>\n            <button class=\"delete-btn\" onclick=\"deleteTodo($\x7btodo.id\x7d)\">Delete</button>\n        </li>\n    \x60).join(\x27\x27);\n\n    const activeCount = todos.filter(todo => !todo.completed).length;\n    totalTasks.textContent = \x60$\x7bactiveCount\x7d active task$\x7bactiveCount !== 1 ? \x27s\x27 : \x27\x27\x7d\x60;\n\x7d\n\n// Enter key support\ndocument.getElementById(\x27todoInput\x27).addEventListener(\x27keypress\x27, function(e) \x7b\n    if (e.key === \x27Enter\x27) \x7b\n        addTodo();\n    \x7d\n\x7d);\n\n// Initial render\nrenderTodos();"

/-- The calculator bundle built in the `calculator`+`build` branch of
`POST /api/ask`. -/
def calcFiles : Bundle :=
  [("index.html", ⟨calcIndexHtml, "html"⟩),
   ("style.css", ⟨calcStyleCss, "css"⟩),
   ("script.js", ⟨calcScriptJs, "javascript"⟩)]

/-- The todo bundle assigned to `global.projectFiles` in the `todo`+`build`
branch of `POST /api/ask`. -/
def todoFiles : Bundle :=
  [("index.html", ⟨todoIndexHtml, "html"⟩),
   ("style.css", ⟨todoStyleCss, "css"⟩),
   ("script.js", ⟨todoScriptJs, "javascript"⟩)]

/-- The `appPlan` object produced when `requestType === 'plan'`. -/
structure AppPlan where
  title : String
  description : String
  features : List String
deriving DecidableEq

/-- The JSON body of a successful `POST /api/ask` response. -/
structure AskResponse where
  response : String
  success : Bool
  apiUsed : String
  showBuildButton : Bool
  appPlan : Option AppPlan
  files : Bundle
  projectSaved : Bool
deriving DecidableEq

/-- Outcome of the `/api/ask` route: 200 with a JSON body, 400 with an error
message, or 500 with an error message (`success: false`). -/
inductive AskResult where
  | ok (r : AskResponse)
  | badRequest (error : String)
  | serverError (error : String)
deriving DecidableEq

/-- Observable effects of one `/api/ask` request: the new value of the
process-wide `global.projectFiles` slot, the `(name, content)` pairs written
to the `ai-generated` directory (in write order), and the HTTP result. -/
structure AskOutcome where
  newGlobal : Option Bundle
  writes : List (String × String)
  result : AskResult
deriving DecidableEq

/-- The plan object built at the end of the handler when
`requestType === 'plan'` (`lp` is the lowercased prompt). -/
def mkAppPlan (lp : String) : AppPlan :=
  { title :=
      if jsIncludes lp "todo" then "Todo List App"
      else if jsIncludes lp "calculator" then "Calculator App"
      else "Custom App"
    description :=
      "Build a " ++
        (if jsIncludes lp "todo" then "todo list"
         else if jsIncludes lp "calculator" then "calculator"
         else "custom") ++ " application"
    features :=
      if jsIncludes lp "todo" then
        ["Add/remove tasks", "Mark complete", "Filter tasks", "Local storage"]
      else if jsIncludes lp "calculator" then
        ["Basic arithmetic", "Keyboard support", "Modern design", "Error handling"]
      else
        ["Custom functionality", "Modern design", "Responsive layout"] }

/-- The common tail of the `/api/ask` handler (lines after the keyword
branches): the empty-response fallback, the `plan` handling, and the
`res.json(...)` body.  `g'` is the value of `global.projectFiles` at this
point and `writes` the file writes already performed. -/
def finishAsk (response : String) (g' : Option Bundle) (writes : List (String × String))
    (requestType lp : String) : AskOutcome :=
  let response := if response == "" then emptyFallbackResponse else response
  let showBuildButton := requestType == "plan"
  let appPlan := if requestType == "plan" then some (mkAppPlan lp) else none
  { newGlobal := g'
    writes := writes
    result := .ok
      { response := response
        success := true
        apiUsed := "local"
        showBuildButton := showBuildButton
        appPlan := appPlan
        files := g'.getD []
        projectSaved := (g'.getD []).length > 0 } }

/-- The `POST /api/ask` route.  `prompt?`/`requestType?` are the body fields
(absent or string), `g` the current `global.projectFiles`.  The todo+build
branch assigns `global.projectFiles` and then evaluates
`Object.entries(files)` where `files` is not in scope (it is `const` inside
the calculator branch), raising a ReferenceError that the route's catch turns
into the 500 envelope. -/
def askHandler (prompt? requestType? : Option String) (g : Option Bundle) : AskOutcome :=
  if jsFalsy prompt? then
    { newGlobal := g, writes := [], result := .badRequest "Prompt is required" }
  else if jsIncludes (toLowerStr (prompt?.getD "")) "calculator" then
    if requestType?.getD "chat" == "build" then
      finishAsk calcBuildResponse (some calcFiles)
        (calcFiles.map fun p => (p.1, p.2.content)) (requestType?.getD "chat")
        (toLowerStr (prompt?.getD ""))
    else
      finishAsk calcChatResponse g [] (requestType?.getD "chat")
        (toLowerStr (prompt?.getD ""))
  else if jsIncludes (toLowerStr (prompt?.getD "")) "todo" then
    if requestType?.getD "chat" == "build" then
      { newGlobal := some todoFiles, writes := [],
        result := .serverError "Internal server error" }
    else
      finishAsk todoChatResponse g [] (requestType?.getD "chat")
        (toLowerStr (prompt?.getD ""))
  else
    finishAsk genericResponse g [] (requestType?.getD "chat")
      (toLowerStr (prompt?.getD ""))

/-- Projection of a successful `/api/ask` outcome to the observables used in
the end-to-end scenario: the response text, the number of entries in `files`,
and the value of `showBuildButton`. -/
def askProbe (o : AskOutcome) : Option (String × Nat × Bool) :=
  match o.result with
  | .ok r => some (r.response, r.files.length, r.showBuildButton)
  | _ => none

/-- The `(extension, baseName)` pair chosen by the client's `generateFileName`
from the language tag (with content-based detection in the default case). -/
def fileBaseExt (content language : String) : String × String :=
  let lang := toLowerStr language
  if lang == "html" then ("html", "index")
  else if lang == "css" then ("css", "styles")
  else if lang == "javascript" || lang == "js" then ("js", "script")
  else if lang == "typescript" || lang == "ts" then ("ts", "app")
  else if lang == "python" || lang == "py" then ("py", "main")
  else if lang == "json" then ("json", "package")
  else if jsIncludes content "<!DOCTYPE html>" || jsIncludes content "<html" then
    ("html", "index")
  else if jsIncludes content "body \x7b" || jsIncludes content "@media" then
    ("css", "styles")
  else if jsIncludes content "function" || jsIncludes content "const "
      || jsIncludes content "let " then
    ("js", "script")
  else ("txt", "file")

/-- The client's `generateFileName(content, language, index)`: base name and
extension from `fileBaseExt`, with the numeric suffix `index + 1` whenever the
code block's array index is nonzero. -/
def generateFileName (content language : String) (index : Nat) : String :=
  let be := fileBaseExt content language
  if index == 0 then be.2 ++ "." ++ be.1
  else be.2 ++ toString (index + 1) ++ "." ++ be.1

/-- Names the code assigns to a list of `(content, language)` code blocks:
`generateFileName` applied at each array index. -/
def codeNamesFor (blocks : List (String × String)) : List String :=
  blocks.mapIdx fun i cl => generateFileName cl.1 cl.2 i

/-- Modelled from the spec: the claimed naming convention's
language-to-`(baseName, extension)` table (html, css, js, ts, py, json,
unknown). -/
def specBaseExt (language : String) : String × String :=
  if language == "html" then ("index", "html")
  else if language == "css" then ("styles", "css")
  else if language == "js" then ("script", "js")
  else if language == "ts" then ("app", "ts")
  else if language == "py" then ("main", "py")
  else if language == "json" then ("package", "json")
  else ("file", "txt")

/-- Modelled from the spec: numeric suffixing starting at the second
occurrence of a given base name (`seen` counts earlier base names). -/
def specNamesAux : List (String × String) → List String → List String
  | [], _ => []
  | cl :: rest, seen =>
    let be := specBaseExt cl.2
    let k := seen.count be.1
    let name :=
      if k == 0 then be.1 ++ "." ++ be.2
      else be.1 ++ toString (k + 1) ++ "." ++ be.2
    name :: specNamesAux rest (be.1 :: seen)

/-- Modelled from the spec: names the spec's naming convention would assign
to a list of `(content, language)` code blocks. -/
def specNamesFor (blocks : List (String × String)) : List String :=
  specNamesAux blocks []

/-- `Math.round((i / n) * 100)` in exact arithmetic:
`⌊(200*i + n) / (2*n)⌋` over `Nat`. -/
def jsRound100 (i n : Nat) : Nat := (200 * i + n) / (2 * n)

/-- The sequence of `progress` values reported by `simulateTyping` for a file
whose content splits into `lines`: one in-loop report per line index `i`
(`Math.round((i / lines.length) * 100)`, with `i` counting lines emitted
before the current one), and the final `progress: 100` update after the
loop. -/
def simulateTypingProgress (lines : List String) : List Nat :=
  ((List.range lines.length).map fun i => jsRound100 i lines.length) ++ [100]

/-- `simulateTyping` on the raw code string (`code.split('\n')`). -/
def simulateTypingProgressOf (code : String) : List Nat :=
  simulateTypingProgress (code.splitOn "\n")

/-- A `CancelToken`'s mutable state. -/
structure Token where
  cancelled : Bool
deriving DecidableEq

/-- `createCancelToken()`: the `cancelled` flag starts out `false`. -/
def createCancelToken : Token := ⟨false⟩

/-- The operations available on a token: `cancel()` (which sets the flag to
`true`) and reading the flag (which leaves it unchanged). -/
inductive TokenOp where
  | cancel
  | read
deriving DecidableEq

def applyTokenOp (t : Token) : TokenOp → Token
  | .cancel => ⟨true⟩
  | .read => t

def runTokenOps (t : Token) (ops : List TokenOp) : Token :=
  ops.foldl applyTokenOp t

/-- `handleAIResponse` creates a fresh token (`createCancelToken()`) for each
generation attempt (rather than reusing a cancelled one). -/
def handleAIResponseToken : Token := createCancelToken

/-- Whether the token reads `cancelled = true` at its `k`-th cooperative
check.  `cT = some t` means `cancel()` was invoked before check `t` (and, by
the monotonicity of the flag, before every later check); `cT = none` means
the generation is never cancelled. -/
def checkCancelled (cT : Option Nat) (k : Nat) : Bool :=
  match cT with
  | none => false
  | some t => t ≤ k

/-- One chat message as appended by the orchestrator (content, `type` field,
optional metadata).  Only the fields the claims talk about are modelled. -/
structure ChatMsg where
  content : String
  msgType : String
  filesGenerated : Option (List String)
deriving DecidableEq

/-- A code block extracted from the AI response text (language tag and code). -/
structure CodeBlock where
  language : String
  code : String
deriving DecidableEq

/-- How a run of `handleFileGeneration` ends: an early `return` at a stage
boundary, normal completion (reaching `setCurrentStage('complete')`), or an
uncaught exception rejecting the promise. -/
inductive FGOutcome where
  | earlyReturn
  | completed
  | raised
deriving DecidableEq

/-- Observable trace of one `handleFileGeneration` run. -/
structure FGResult where
  stages : List String
  typed : List String
  log : List ChatMsg
  outcome : FGOutcome
deriving DecidableEq

/-- The per-file loop of `handleFileGeneration` (both the success and the
fallback copy): each iteration first checks the token (`break` when
cancelled), then evaluates `generateFileName(code, i)` — a two-argument call
of the three-argument function, so the numeric index `i` receives the
`.toLowerCase()` call and a TypeError is raised before `simulateTyping` can
run.  Returns the next check index and whether the loop raised. -/
def fgLoop (cT : Option Nat) (k : Nat) : List CodeBlock → Nat × Bool
  | [] => (k, false)
  | _ :: _ => if checkCancelled cT k then (k + 1, false) else (k + 1, true)

/-- The catch-branch of `handleFileGeneration`: local fallback generation
(`generateLocalCode`), the same per-file loop, and the unconditional message
append; an exception here is uncaught and rejects the run. -/
def fgFallback (fbResp : String) (fbBlocks : List CodeBlock) (cT : Option Nat)
    (k : Nat) (log0 : List ChatMsg) : FGResult :=
  if (fgLoop cT k fbBlocks).2 then
    { stages := ["analysis", "architecture", "structure"], typed := [],
      log := log0, outcome := .raised }
  else
    { stages := ["analysis", "architecture", "structure", "complete"]
      typed := []
      log := log0 ++
        [{ content := fbResp
           msgType := if fbBlocks.length > 0 then "code" else "normal"
           filesGenerated := none }]
      outcome := .completed }

/-- A run of `handleFileGeneration`: three staged delays each followed by a
token check (`return` on cancellation), the `/api/ask` fetch (outcome
`fetchOk`; `aiResp`/`blocks` abstract the response text and the code blocks
the regex extracts from it, `fbResp`/`fbBlocks` likewise for the local
fallback text), the per-file loop, and the message append.  `filesCreated`
is always empty — no file ever finishes — so `saveProject` never runs and
the appended message carries no `filesGenerated` metadata; the message is
appended even when the loop was left through a cancellation `break`. -/
def fileGenRun (aiResp : String) (blocks : List CodeBlock) (fetchOk : Bool)
    (fbResp : String) (fbBlocks : List CodeBlock) (cT : Option Nat)
    (log0 : List ChatMsg) : FGResult :=
  if checkCancelled cT 0 then
    { stages := ["analysis"], typed := [], log := log0, outcome := .earlyReturn }
  else if checkCancelled cT 1 then
    { stages := ["analysis", "architecture"], typed := [], log := log0,
      outcome := .earlyReturn }
  else if checkCancelled cT 2 then
    { stages := ["analysis", "architecture", "structure"], typed := [],
      log := log0, outcome := .earlyReturn }
  else if fetchOk then
    if (fgLoop cT 3 blocks).2 then
      fgFallback fbResp fbBlocks cT (fgLoop cT 3 blocks).1 log0
    else
      { stages := ["analysis", "architecture", "structure", "complete"]
        typed := []
        log := log0 ++
          [{ content := aiResp
             msgType := if blocks.length > 0 then "code" else "normal"
             filesGenerated := none }]
        outcome := .completed }
  else
    fgFallback fbResp fbBlocks cT 3 log0

/-- Outcome of `POST /api/files/create`. -/
inductive CreateResult where
  | badRequest (error : String)
  | ok (fileName : String) (filePath : String)
  | serverError (error : String)
deriving DecidableEq

/-- The `POST /api/files/create` route.  `fileName?`/`content?` are the body
fields (absent or string); `ioOk` abstracts whether the directory creation
and `fs.writeFileSync` succeed.  Returns the HTTP result and the
`(fileName, content)` writes performed.  The path is modelled relative to the
process working directory. -/
def createFileHandler (fileName? content? : Option String) (ioOk : Bool) :
    CreateResult × List (String × String) :=
  if jsFalsy fileName? || content? == none then
    (.badRequest "fileName and content are required", [])
  else if ioOk then
    let fn := fileName?.getD ""
    (.ok fn ("ai-generated/" ++ fn), [(fn, content?.getD "")])
  else
    (.serverError "Failed to create file", [])

mutual
/-- Model file system under the `ai-generated` directory: a file holds
`some content` when `fs.readFileSync` succeeds and `none` when reading it
throws; a directory holds an ordered entry list (`fs.readdirSync` order). -/
inductive FsNode where
  | file : Option String → FsNode
  | dir : FsEntries → FsNode
inductive FsEntries where
  | nil : FsEntries
  | cons : String → FsNode → FsEntries → FsEntries
end

/-- One entry of the `GET /api/files/list` response:
`relativePath → {content, type}`. -/
structure FileEnt where
  path : String
  content : String
  fileType : String
deriving DecidableEq

/-- `item.startsWith('.')`. -/
def jsStartsWithDot (s : String) : Bool :=
  match s.data with
  | [] => false
  | c :: _ => c == '.'

/-- Characters after the last `'.'` of a name, if any. -/
def lastDotSplit : List Char → Option (List Char)
  | [] => none
  | c :: cs =>
    match lastDotSplit cs with
    | some r => some r
    | none => if c == '.' then some cs else none

/-- `path.extname(item)` for the basenames reaching it (names not starting
with a dot, which the scan filters out beforehand). -/
def extname (s : String) : String :=
  match lastDotSplit s.data with
  | some r => "." ++ ⟨r⟩
  | none => ""

/-- The extension-to-type table of the listing endpoint. -/
def typeOfExt (ext : String) : String :=
  if ext == ".html" then "html"
  else if ext == ".css" then "css"
  else if ext == ".js" || ext == ".jsx" then "javascript"
  else if ext == ".ts" || ext == ".tsx" then "typescript"
  else if ext == ".py" then "python"
  else if ext == ".json" then "json"
  else "text"

/-- `relativePath ? path.join(relativePath, item) : item`. -/
def joinRel (rel item : String) : String :=
  if rel == "" then item else rel ++ "/" ++ item

mutual
/-- `scanDirectory` of the listing endpoint, split over the two model types:
hidden names are skipped, readable files are recorded with their content and
mapped type, unreadable files are silently skipped, directories are scanned
recursively. -/
def scanNode (rel name : String) : FsNode → List FileEnt
  | .file none => []
  | .file (some content) =>
    [{ path := joinRel rel name, content := content
       fileType := typeOfExt (toLowerStr (extname name)) }]
  | .dir entries => scanEntries entries (joinRel rel name)
def scanEntries : FsEntries → String → List FileEnt
  | .nil, _ => []
  | .cons name node rest, rel =>
    (if jsStartsWithDot name then [] else scanNode rel name node) ++
      scanEntries rest rel
end

/-- The `GET /api/files/list` route: `none` models a missing `ai-generated`
directory (`fs.existsSync` false).  Every fallible file-system call happens
inside the route's try/catch (whose handler also answers `{files: {}}`), so
the route always responds 200 with a (possibly empty) mapping. -/
def listFilesHandler : Option FsEntries → List FileEnt
  | none => []
  | some es => scanEntries es ""

mutual
/-- Paths through a model directory tree that the listing claims talk about:
`EntriesPath es comps c` holds when following the visible (non-hidden) name
components `comps` from `es` reaches a readable file with content `c`. -/
inductive NodePath : FsNode → List String → String → Prop where
  | file {c : String} : NodePath (.file (some c)) [] c
  | dir {es : FsEntries} {comps : List String} {c : String} :
      EntriesPath es comps c → NodePath (.dir es) comps c
inductive EntriesPath : FsEntries → List String → String → Prop where
  | head {name : String} {node : FsNode} {rest : FsEntries}
      {comps : List String} {c : String} :
      jsStartsWithDot name = false → NodePath node comps c →
      EntriesPath (.cons name node rest) (name :: comps) c
  | tail {name : String} {node : FsNode} {rest : FsEntries}
      {comps : List String} {c : String} :
      EntriesPath rest comps c → EntriesPath (.cons name node rest) comps c
end

/-- The listing entry determined by a component path and content, relative to
`rel`. -/
def mkEnt (rel : String) (comps : List String) (c : String) : FileEnt :=
  { path := comps.foldl joinRel rel
    content := c
    fileType := typeOfExt (toLowerStr (extname ((comps.getLast?).getD ""))) }

/-- A sample bundle for witness instances. -/
def demoBundle : Bundle := [("a.html", ⟨"x", "html"⟩)]

/-- A sample output directory for witness instances. -/
def demoFs : FsEntries :=
  .cons "a.html" (.file (some "x")) (.cons "b.css" (.file (some "y")) .nil)

/-- C9: a `POST /api/ask` request whose body has no prompt field is answered
with HTTP 400 and `Prompt is required`; no file is written, and
`global.projectFiles` is unchanged, so no bundle is produced by the
request. -/
theorem c9_missing_prompt (requestType? : Option String) (g : Option Bundle) :
    askHandler none requestType? g =
      { newGlobal := g, writes := [], result := .badRequest "Prompt is required" } := rfl

/-- C10: a freshly created `CancelToken` starts with `cancelled = false`;
once the flag is true it stays true under every further sequence of token
operations (`cancel()` or reads); `cancel()` does set it; and
`handleAIResponse` uses a fresh `createCancelToken()` per generation
attempt. -/
theorem c10_cancel_token (ops : List TokenOp) :
    createCancelToken.cancelled = false ∧
    handleAIResponseToken = createCancelToken ∧
    (runTokenOps ⟨true⟩ ops).cancelled = true ∧
    (runTokenOps createCancelToken [TokenOp.cancel]).cancelled = true := by
  refine ⟨rfl, rfl, ?_, rfl⟩
  induction ops with
  | nil => rfl
  | cons op rest ih =>
    cases op <;> simpa [runTokenOps, applyTokenOp] using ih

/-- C1: on `prompt = "todo"`, `requestType = "build"` the handler assigns the
three-file todo bundle (index.html, style.css, script.js, each with non-empty
content) to `global.projectFiles`, but then evaluates `Object.entries(files)`
with `files` out of scope, so the request is answered with HTTP 500
`Internal server error` instead of the claimed success response carrying the
bundle. -/
theorem c1_todo_build_crash :
    askHandler (some "todo") (some "build") none =
      { newGlobal := some todoFiles, writes := [],
        result := .serverError "Internal server error" } ∧
    todoFiles.map Prod.fst = ["index.html", "style.css", "script.js"] ∧
    (todoFiles.all fun p => !(p.2.content == "")) = true := by
  refine ⟨rfl, rfl, rfl⟩

/-- C4 counterexample: for prompt `"build me a todo app"` with no
`requestType` field and no earlier build in the process, the successful
response carries the todo chat text, `0` entries in `files` (not 3), and
`showBuildButton` present with value `false` (not absent). -/
theorem c4_counterexample :
    askProbe (askHandler (some "build me a todo app") none none) =
      some (todoChatResponse, 0, false) := rfl

/-- C4 amended: with `requestType` defaulting to `chat`, the todo branch
builds no files, so the response's `files` field has 0 entries,
`showBuildButton` is `false`, and `global.projectFiles` stays empty; the
response text contains no code fence, so the client's generation run
extracts no code blocks, types no file, and appends a single chat message
with no `filesGenerated` metadata. -/
theorem c4_amended :
    askProbe (askHandler (some "build me a todo app") none none) =
      some (todoChatResponse, 0, false) ∧
    (askHandler (some "build me a todo app") none none).newGlobal = none ∧
    jsIncludes todoChatResponse "\x60\x60\x60" = false ∧
    (fileGenRun todoChatResponse [] true "" [] none []).log =
      [{ content := todoChatResponse, msgType := "normal", filesGenerated := none }] ∧
    (fileGenRun todoChatResponse [] true "" [] none []).typed = [] := by
  refine ⟨rfl, rfl, rfl, rfl, rfl⟩

/-- C6 counterexample: for the block list `[css, html]`, the code names the
second block `index2.html` (suffix from the array index) although it is the
first occurrence of the base name `index`, for which the claimed convention
would produce `index.html`. -/
theorem c6_counterexample :
    codeNamesFor [("", "css"), ("", "html")] = ["styles.css", "index2.html"] ∧
    specNamesFor [("", "css"), ("", "html")] = ["styles.css", "index.html"] := by
  refine ⟨rfl, rfl⟩

/-- C6 amended: the base-name/extension table is as claimed (with
content-based detection in the unknown case), but the numeric suffix
`baseName(index+1).ext` is applied to every code block whose array index is
nonzero, regardless of how often the base name occurred before. -/
theorem c6_amended (c l : String) (i : Nat) (hi : 1 ≤ i) :
    generateFileName c "html" 0 = "index.html" ∧
    generateFileName c "css" 0 = "styles.css" ∧
    generateFileName c "js" 0 = "script.js" ∧
    generateFileName c "ts" 0 = "app.ts" ∧
    generateFileName c "py" 0 = "main.py" ∧
    generateFileName c "json" 0 = "package.json" ∧
    generateFileName "" "unknown" 0 = "file.txt" ∧
    generateFileName c l i =
      (fileBaseExt c l).2 ++ toString (i + 1) ++ "." ++ (fileBaseExt c l).1 := by
  refine ⟨rfl, rfl, rfl, rfl, rfl, rfl, rfl, ?_⟩
  cases i with
  | zero => exact absurd hi (by decide)
  | succ n => rfl

/-- Witness for `c6_amended` at a concrete input. -/
theorem c6_amended_witness :
    generateFileName "" "css" 1 =
      (fileBaseExt "" "css").2 ++ toString (1 + 1) ++ "." ++ (fileBaseExt "" "css").1 :=
  (c6_amended "" "css" 1 (by decide)).2.2.2.2.2.2.2

/-- C8 counterexample: a body with `fileName` present but equal to the empty
string (and `content` present) is also answered with HTTP 400, although
neither field is missing, because the handler tests JavaScript falsiness
(`!fileName`) rather than absence. -/
theorem c8_counterexample :
    createFileHandler (some "") (some "x") true =
      (.badRequest "fileName and content are required", []) := rfl

/-- C8 amended: `POST /api/files/create` answers 400 exactly when `fileName`
is absent or empty (falsy) or `content` is absent; otherwise it answers
`{success, fileName, path}` and performs the single write when the
file-system operations succeed, and 500 exactly when they fail. -/
theorem c8_amended (fileName? content? : Option String) (ioOk : Bool) :
    (createFileHandler fileName? content? ioOk =
        (.badRequest "fileName and content are required", []) ↔
      jsFalsy fileName? = true ∨ content? = none) ∧
    (jsFalsy fileName? = false → ∀ c, content? = some c →
      (ioOk = true →
        createFileHandler fileName? content? ioOk =
          (.ok (fileName?.getD "") ("ai-generated/" ++ fileName?.getD ""),
            [(fileName?.getD "", c)])) ∧
      (ioOk = false →
        createFileHandler fileName? content? ioOk =
          (.serverError "Failed to create file", []))) := by
  cases hf : jsFalsy fileName? <;> cases content? <;> cases ioOk <;>
    simp [createFileHandler, hf]

/-- Witness for `c8_amended` at a concrete input. -/
theorem c8_amended_witness :
    createFileHandler (some "a.txt") (some "hi") true =
      (.ok ((some "a.txt").getD "") ("ai-generated/" ++ (some "a.txt").getD ""),
        [((some "a.txt").getD "", "hi")]) :=
  ((c8_amended (some "a.txt") (some "hi") true).2 rfl "hi" rfl).1 rfl

set_option maxRecDepth 4000 in
/-- C3 counterexample: for a 512-line file the loop report at line index 510
is already 100 (`round((510/512)*100) = round(99.609...) = 100`, exact also
in IEEE doubles), although line 510 is not the final line — loop reports
occupy positions 0–511 and the end-of-typing update position 512 of the
emitted sequence. -/
theorem c3_counterexample :
    (simulateTypingProgress (List.replicate 512 "a"))[510]? = some 100 ∧
    (simulateTypingProgress (List.replicate 512 "a")).length = 513 ∧
    510 < 511 := by
  refine ⟨rfl, rfl, by omega⟩

/-- C3 amended: the progress sequence emitted by `simulateTyping` is
non-decreasing and its last report is 100 (the end-of-typing update); the
in-loop report is `round(100*i/n)` with `i` counting previously emitted
lines, so 100 can additionally be reported before the final line on long
files. -/
theorem c3_amended (lines : List String) :
    (simulateTypingProgress lines).Pairwise (· ≤ ·) ∧
    (simulateTypingProgress lines).getLast? = some 100 := by
  constructor
  · unfold simulateTypingProgress
    refine List.pairwise_append.mpr ⟨?_, List.pairwise_singleton _ _, ?_⟩
    · exact List.Pairwise.map _
        (fun a b hab => Nat.div_le_div_right (by omega))
        (List.pairwise_lt_range _)
    · intro x hx y hy
      simp only [List.mem_singleton] at hy
      subst hy
      simp only [List.mem_map, List.mem_range] at hx
      obtain ⟨i, hi, rfl⟩ := hx
      unfold jsRound100
      have h2 : (200 * i + lines.length) / (2 * lines.length) < 101 := by
        rw [Nat.div_lt_iff_lt_mul (by omega)]
        omega
      omega
  · unfold simulateTypingProgress
    exact List.getLast?_concat _

theorem fgFallback_typed (fbResp : String) (fbBlocks : List CodeBlock)
    (cT : Option Nat) (k : Nat) (log0 : List ChatMsg) :
    (fgFallback fbResp fbBlocks cT k log0).typed = [] := by
  unfold fgFallback
  split <;> rfl

theorem fgFallback_log_prefix (fbResp : String) (fbBlocks : List CodeBlock)
    (cT : Option Nat) (k : Nat) (log0 : List ChatMsg) :
    log0 <+: (fgFallback fbResp fbBlocks cT k log0).log := by
  unfold fgFallback
  split
  · exact List.prefix_rfl
  · exact List.prefix_append _ _

theorem fileGenRun_typed (aiResp fbResp : String) (blocks fbBlocks : List CodeBlock)
    (fetchOk : Bool) (cT : Option Nat) (log0 : List ChatMsg) :
    (fileGenRun aiResp blocks fetchOk fbResp fbBlocks cT log0).typed = [] := by
  unfold fileGenRun
  split_ifs <;> first
    | rfl
    | apply fgFallback_typed

theorem fileGenRun_log_prefix (aiResp fbResp : String) (blocks fbBlocks : List CodeBlock)
    (fetchOk : Bool) (cT : Option Nat) (log0 : List ChatMsg) :
    log0 <+: (fileGenRun aiResp blocks fetchOk fbResp fbBlocks cT log0).log := by
  unfold fileGenRun
  split_ifs <;> first
    | exact List.prefix_rfl
    | apply fgFallback_log_prefix
    | exact List.prefix_append _ _

/-- C2 amended: cooperative cancellation in `handleFileGeneration`.  In every
run no file is ever typed (the per-file loop raises at its two-argument
`generateFileName` call before `simulateTyping`), and messages appended
before the run are preserved.  If `cancel()` lands before one of the three
stage-boundary checks, the run returns early with no message appended; but
if it lands before the first file-boundary check, the AI-response chat
message is still appended for the aborted generation (with no
`filesGenerated` metadata), contrary to the original claim. -/
theorem c2_amended (aiResp fbResp : String) (blocks fbBlocks : List CodeBlock)
    (fetchOk : Bool) (cT : Option Nat) (log0 : List ChatMsg) :
    (fileGenRun aiResp blocks fetchOk fbResp fbBlocks cT log0).typed = [] ∧
    log0 <+: (fileGenRun aiResp blocks fetchOk fbResp fbBlocks cT log0).log ∧
    (∀ t, cT = some t → t ≤ 2 →
      (fileGenRun aiResp blocks fetchOk fbResp fbBlocks cT log0).log = log0 ∧
      (fileGenRun aiResp blocks fetchOk fbResp fbBlocks cT log0).outcome = .earlyReturn) ∧
    (cT = some 3 → fetchOk = true → blocks ≠ [] →
      (fileGenRun aiResp blocks fetchOk fbResp fbBlocks cT log0).log =
        log0 ++ [{ content := aiResp, msgType := "code", filesGenerated := none }]) := by
  refine ⟨fileGenRun_typed _ _ _ _ _ _ _, fileGenRun_log_prefix _ _ _ _ _ _ _, ?_, ?_⟩
  · rintro t rfl ht
    interval_cases t <;> simp [fileGenRun, checkCancelled]
  · rintro rfl rfl hb
    cases blocks with
    | nil => exact absurd rfl hb
    | cons b bs => simp [fileGenRun, fgLoop, checkCancelled]

/-- Witness for `c2_amended` at a concrete input (cancellation before the
first stage check). -/
theorem c2_amended_witness :
    (fileGenRun "r" [⟨"html", "x"⟩] true "f" [] (some 0) []).log = [] ∧
    (fileGenRun "r" [⟨"html", "x"⟩] true "f" [] (some 0) []).outcome = .earlyReturn :=
  (c2_amended "r" "f" [⟨"html", "x"⟩] [] true (some 0) []).2.2.1 0 rfl (by decide)

/-- C2 counterexample: when `cancel()` lands after the stage checks but
before the first file-boundary check (check index 3), the loop is left via
`break`, yet the run still appends a chat message for the aborted
generation — the original claim says none is appended. -/
theorem c2_counterexample :
    (fileGenRun "r" [⟨"html", "x"⟩] true "f" [] (some 3) []).log =
      [{ content := "r", msgType := "code", filesGenerated := none }] ∧
    (fileGenRun "r" [⟨"html", "x"⟩] true "f" [] (some 3) []).outcome = .completed := by
  refine ⟨rfl, rfl⟩

theorem finishAsk_ok_files (response : String) (g' : Option Bundle)
    (writes : List (String × String)) (requestType lp : String) (r : AskResponse)
    (h : (finishAsk response g' writes requestType lp).result = .ok r) :
    r.files = g'.getD [] := by
  unfold finishAsk at h
  simp only [AskResult.ok.injEq] at h
  subst h
  rfl

/-- C5: every successful `/api/ask` response carries `files` equal to the
process-wide `global.projectFiles` slot as left by the request (or the empty
mapping when the slot was never filled); in particular a prompt matching no
keyword still receives the previously stored bundle once one exists. -/
theorem c5_files_mirror_global :
    (∀ (prompt? requestType? : Option String) (g : Option Bundle) (r : AskResponse),
      (askHandler prompt? requestType? g).result = .ok r →
        r.files = (askHandler prompt? requestType? g).newGlobal.getD []) ∧
    (∀ (p : String) (requestType? : Option String) (b : Bundle),
      jsFalsy (some p) = false →
      jsIncludes (toLowerStr p) "calculator" = false →
      jsIncludes (toLowerStr p) "todo" = false →
        (askHandler (some p) requestType? (some b)).newGlobal = some b ∧
        ∃ r, (askHandler (some p) requestType? (some b)).result = .ok r ∧
          r.files = b) := by
  constructor
  · intro prompt? requestType? g r
    unfold askHandler
    split
    · exact fun h => absurd h (by simp)
    · split
      · split
        · exact finishAsk_ok_files _ _ _ _ _ r
        · exact finishAsk_ok_files _ _ _ _ _ r
      · split
        · split
          · exact fun h => absurd h (by simp)
          · exact finishAsk_ok_files _ _ _ _ _ r
        · exact finishAsk_ok_files _ _ _ _ _ r
  · intro p requestType? b h1 h2 h3
    unfold askHandler
    simp only [Option.getD_some, h1, h2, h3, Bool.false_eq_true, if_false]
    exact ⟨rfl, _, rfl, rfl⟩

/-- Witness for `c5_files_mirror_global` at a concrete input: a prompt
matching no keyword, after a build stored `demoBundle`. -/
theorem c5_witness :
    (askHandler (some "hello") none (some demoBundle)).newGlobal = some demoBundle ∧
    ∃ r, (askHandler (some "hello") none (some demoBundle)).result = .ok r ∧
      r.files = demoBundle :=
  c5_files_mirror_global.2 "hello" none demoBundle rfl rfl rfl

theorem entriesPath_ne_nil : ∀ (es : FsEntries) (comps : List String) (c : String),
    EntriesPath es comps c → comps ≠ []
  | .nil, _, _, h => by cases h
  | .cons _ _ rest, comps, c, h => by
    cases h with
    | head hn hp => simp
    | tail h' => exact entriesPath_ne_nil rest comps c h'

mutual
theorem nodePath_visible : ∀ (node : FsNode) (comps : List String) (c : String),
    NodePath node comps c → ∀ m ∈ comps, jsStartsWithDot m = false
  | .file _, _, _, h => by
    cases h
    intro m hm
    exact absurd hm (List.not_mem_nil m)
  | .dir es, comps, c, h => by
    cases h with
    | dir hep => exact entriesPath_visible es comps c hep
theorem entriesPath_visible : ∀ (es : FsEntries) (comps : List String) (c : String),
    EntriesPath es comps c → ∀ m ∈ comps, jsStartsWithDot m = false
  | .nil, _, _, h => by cases h
  | .cons name node rest, comps, c, h => by
    cases h with
    | head hn hp =>
      intro m hm
      rcases List.mem_cons.mp hm with rfl | hm'
      · exact hn
      · exact nodePath_visible node _ c hp m hm'
    | tail h' => exact entriesPath_visible rest comps c h'
end

theorem mkEnt_cons (rel name : String) (comps : List String) (c : String)
    (h : comps ≠ []) :
    mkEnt (joinRel rel name) comps c = mkEnt rel (name :: comps) c := by
  cases comps with
  | nil => exact absurd rfl h
  | cons a l => simp [mkEnt, List.getLast?_cons_cons]

mutual
theorem mem_scanNode : ∀ (node : FsNode) (rel name : String) (x : FileEnt),
    x ∈ scanNode rel name node ↔
      ∃ comps c, NodePath node comps c ∧ x = mkEnt rel (name :: comps) c
  | .file none, rel, name, x => by
    simp only [scanNode, List.not_mem_nil, false_iff]
    rintro ⟨comps, c, hp, hx⟩
    cases hp
  | .file (some c0), rel, name, x => by
    simp only [scanNode, List.mem_singleton]
    constructor
    · intro h
      refine ⟨[], c0, NodePath.file, ?_⟩
      rw [h]; rfl
    · rintro ⟨comps, c, hp, hx⟩
      cases hp
      rw [hx]; rfl
  | .dir es, rel, name, x => by
    rw [show scanNode rel name (.dir es) = scanEntries es (joinRel rel name) from rfl,
      mem_scanEntries es (joinRel rel name) x]
    constructor
    · rintro ⟨comps, c, hp, hx⟩
      exact ⟨comps, c, NodePath.dir hp,
        hx.trans (mkEnt_cons rel name comps c (entriesPath_ne_nil es comps c hp))⟩
    · rintro ⟨comps, c, hp, hx⟩
      cases hp with
      | dir hep =>
        exact ⟨comps, c, hep,
          hx.trans (mkEnt_cons rel name comps c (entriesPath_ne_nil es comps c hep)).symm⟩
theorem mem_scanEntries : ∀ (es : FsEntries) (rel : String) (x : FileEnt),
    x ∈ scanEntries es rel ↔
      ∃ comps c, EntriesPath es comps c ∧ x = mkEnt rel comps c
  | .nil, rel, x => by
    simp only [scanEntries, List.not_mem_nil, false_iff]
    rintro ⟨comps, c, hp, hx⟩
    cases hp
  | .cons name node rest, rel, x => by
    simp only [scanEntries, List.mem_append]
    rw [mem_scanEntries rest rel x]
    cases hd : jsStartsWithDot name with
    | true =>
      simp only [hd, if_true, List.not_mem_nil, false_or]
      constructor
      · rintro ⟨comps, c, hp, hx⟩
        exact ⟨comps, c, .tail hp, hx⟩
      · rintro ⟨comps, c, hp, hx⟩
        cases hp with
        | head hn hnp => rw [hd] at hn; cases hn
        | tail h' => exact ⟨comps, c, h', hx⟩
    | false =>
      simp only [hd, if_false, Bool.false_eq_true]
      rw [mem_scanNode node rel name x]
      constructor
      · rintro (⟨comps, c, hp, hx⟩ | ⟨comps, c, hp, hx⟩)
        · exact ⟨name :: comps, c, .head hd hp, hx⟩
        · exact ⟨comps, c, .tail hp, hx⟩
      · rintro ⟨comps, c, hp, hx⟩
        cases hp with
        | head hn hnp => exact Or.inl ⟨_, c, hnp, hx⟩
        | tail h' => exact Or.inr ⟨comps, c, h', hx⟩
end

/-- C7: the listing endpoint always answers with a (possibly empty) mapping —
every fallible call sits inside its try/catch, which also answers
`{files: {}}` — and: a missing or empty output directory yields `{}`; an
entry appears exactly for each readable file reached through non-hidden
components (so hidden files are excluded and unreadable files are silently
skipped), with matching relative path, content, and extension-derived
type. -/
theorem c7_listing :
    listFilesHandler none = [] ∧
    listFilesHandler (some .nil) = [] ∧
    (∀ (es : FsEntries) (x : FileEnt),
      x ∈ listFilesHandler (some es) ↔
        ∃ comps c, EntriesPath es comps c ∧ x = mkEnt "" comps c) ∧
    (∀ (es : FsEntries) (comps : List String) (c : String),
      EntriesPath es comps c → ∀ m ∈ comps, jsStartsWithDot m = false) := by
  refine ⟨rfl, rfl, ?_, ?_⟩
  · intro es x
    exact mem_scanEntries es "" x
  · exact entriesPath_visible

/-- Witness for `c7_listing` at a concrete directory: the bundle
`{a.html: "x", b.css: "y"}` materialized in the output directory is listed
with matching content. -/
theorem c7_witness :
    ({ path := "a.html", content := "x", fileType := "html" } : FileEnt) ∈
      listFilesHandler (some demoFs) ∧
    ({ path := "b.css", content := "y", fileType := "css" } : FileEnt) ∈
      listFilesHandler (some demoFs) :=
  ⟨(c7_listing.2.2.1 demoFs _).mpr
      ⟨["a.html"], "x", EntriesPath.head rfl NodePath.file, by rfl⟩,
    (c7_listing.2.2.1 demoFs _).mpr
      ⟨["b.css"], "y", EntriesPath.tail (EntriesPath.head rfl NodePath.file), by rfl⟩⟩
